import Mathlib

/-!
Verification of the WaveMail email-assistant triage core against its
specification.  The Python source under backend/agents (tools.py,
pipelines.py) and backend/services/read_emails.py is shallowly embedded:
pure helpers become Lean functions, the LLM oracle and the Gmail store
become explicit parameters (response functions and a failure predicate),
and Python exceptions become Except values.  Strings are modelled at the
level Python manipulates them (sequences of characters, ASCII case
folding); byte payloads are lists of byte values.
-/

/-! ## Python-style string primitives (ASCII scope) -/

/-- Characters stripped by Python `str.strip()`. -/
def isPyWhitespace (c : Char) : Bool :=
  c = ' ' || c = '\t' || c = '\n' || c = '\r' || c = '\x0b' || c = '\x0c'

/-- Python `str.strip()`: drop leading and trailing whitespace. -/
def pyStrip (s : String) : String :=
  String.mk (((s.data.dropWhile isPyWhitespace).reverse.dropWhile isPyWhitespace).reverse)

/-- Python `str.lower()` (ASCII case folding). -/
def pyLower (s : String) : String :=
  String.mk (s.data.map Char.toLower)

/-- Does `pat` occur at the head of `l`? -/
def leadsWith [DecidableEq α] : List α → List α → Bool
  | [], _ => true
  | _ :: _, [] => false
  | a :: as, b :: bs => a = b && leadsWith as bs

/-- Does `pat` occur as a contiguous subsequence of `l`?  Python `pat in s`. -/
def containsSeq [DecidableEq α] (pat : List α) : List α → Bool
  | [] => pat.isEmpty
  | b :: bs => leadsWith pat (b :: bs) || containsSeq pat bs

/-- Python `pat in s` on strings. -/
def strContains (s pat : String) : Bool :=
  containsSeq pat.data s.data

/-- Python `s.split(sep)` for a one-character separator (keeps empty pieces). -/
def splitChar (sep : Char) : List Char → List (List Char)
  | [] => [[]]
  | c :: rest =>
    if c = sep then [] :: splitChar sep rest
    else
      match splitChar sep rest with
      | [] => [[c]]
      | h :: t => (c :: h) :: t

/-- Python `s.split("\n")`. -/
def pySplitLines (s : String) : List String :=
  (splitChar '\n' s.data).map (fun cs => String.mk cs)

/-- Python `sep.join(items)`. -/
def joinWith (sep : String) : List String → String
  | [] => ""
  | [x] => x
  | x :: y :: rest => x ++ sep ++ joinWith sep (y :: rest)

/-- Python regex `\w` character class (ASCII scope): letters, digits, underscore. -/
def pyWordChar (c : Char) : Bool :=
  c.isAlphanum || c = '_'

/-- Python `re.sub(r"[^\w\s]", " ", s)`: every character that is neither a
word character nor whitespace is replaced by a space. -/
def stripPunctToSpace (s : String) : String :=
  String.mk (s.data.map (fun c => if pyWordChar c || isPyWhitespace c then c else ' '))

/-- Byte values of an ASCII string, for building concrete payloads. -/
def asciiBytes (s : String) : List Nat :=
  s.data.map Char.toNat

/-! ## Byte decoding

Python `bytes.decode('utf-8')` raises `UnicodeDecodeError` on invalid input;
it is modelled as an Option-valued UTF-8 decoder.  `bytes.decode('latin-1')`
is total: every byte maps to the code point of the same value. -/

/-- UTF-8 continuation byte test. -/
def isContByte (b : Nat) : Bool :=
  0x80 ≤ b && b ≤ 0xBF

/-- UTF-8 decoding of a byte list; `none` models `UnicodeDecodeError`
(invalid lead bytes, truncated sequences, overlong forms, surrogates). -/
def utf8DecodeList : List Nat → Option (List Char)
  | [] => some []
  | b :: rest =>
    if b < 0x80 then (utf8DecodeList rest).map (fun cs => Char.ofNat b :: cs)
    else if b < 0xC2 then none
    else if b ≤ 0xDF then
      match rest with
      | b2 :: rest2 =>
        if isContByte b2 then
          (utf8DecodeList rest2).map (fun cs => Char.ofNat ((b - 0xC0) * 0x40 + (b2 - 0x80)) :: cs)
        else none
      | [] => none
    else if b ≤ 0xEF then
      match rest with
      | b2 :: b3 :: rest3 =>
        if isContByte b2 && isContByte b3 then
          if 0x800 ≤ (b - 0xE0) * 0x1000 + (b2 - 0x80) * 0x40 + (b3 - 0x80) &&
             !(0xD800 ≤ (b - 0xE0) * 0x1000 + (b2 - 0x80) * 0x40 + (b3 - 0x80) &&
               (b - 0xE0) * 0x1000 + (b2 - 0x80) * 0x40 + (b3 - 0x80) ≤ 0xDFFF) then
            (utf8DecodeList rest3).map
              (fun cs => Char.ofNat ((b - 0xE0) * 0x1000 + (b2 - 0x80) * 0x40 + (b3 - 0x80)) :: cs)
          else none
        else none
      | _ => none
    else if b ≤ 0xF4 then
      match rest with
      | b2 :: b3 :: b4 :: rest4 =>
        if isContByte b2 && isContByte b3 && isContByte b4 then
          if 0x10000 ≤ (b - 0xF0) * 0x40000 + (b2 - 0x80) * 0x1000 + (b3 - 0x80) * 0x40 + (b4 - 0x80) &&
             (b - 0xF0) * 0x40000 + (b2 - 0x80) * 0x1000 + (b3 - 0x80) * 0x40 + (b4 - 0x80) ≤ 0x10FFFF then
            (utf8DecodeList rest4).map
              (fun cs =>
                Char.ofNat ((b - 0xF0) * 0x40000 + (b2 - 0x80) * 0x1000 + (b3 - 0x80) * 0x40 + (b4 - 0x80)) :: cs)
          else none
        else none
      | _ => none
    else none

/-- Python `bs.decode('utf-8')`: a string on success, `none` on
`UnicodeDecodeError`. -/
def utf8Decode (bs : List Nat) : Option String :=
  (utf8DecodeList bs).map (fun cs => String.mk cs)

/-- Exception-style view of UTF-8 decoding, for code with no handler. -/
def utf8DecodeE (bs : List Nat) : Except String String :=
  match utf8Decode bs with
  | some s => .ok s
  | none => .error "UnicodeDecodeError"

/-- Python `bs.decode('latin-1')`: total, byte value = code point. -/
def latin1Decode (bs : List Nat) : String :=
  String.mk (bs.map (fun b => Char.ofNat (b % 256)))

example : utf8Decode (asciiBytes "Hello") = some "Hello" := rfl
example : utf8Decode [0xFF] = none := rfl
example : utf8Decode [0xC3, 0xA9] = some "é" := rfl
example : latin1Decode [0xFF] = "ÿ" := rfl

/-! ## HTML visible-text extraction

Models the BeautifulSoup calls in the source (html.parser):
`decompose()` on selected element names followed by
`get_text(separator='\n', strip=True)`.  In `get_text` every tag is
dropped and only text runs remain, each run is stripped and empty runs are
discarded, and the survivors are joined with a newline.  Decomposing
`<script>`/`<style>` removes their raw text content, so those names are
passed as `skip` ranges; `<img>` is a void element, so decomposing it
removes only the tag itself, which dropping tags already does.  Character
entities and comment nodes are outside the model. -/

/-- Lower-cased element name of a raw tag body (text between `<` and `>`),
with a leading `/` removed. -/
def tagLowerName (tag : List Char) : String :=
  String.mk (((tag.dropWhile (fun c => c = '/')).takeWhile
    (fun c => !(c = ' ' || c = '/' || c = '\t' || c = '\n' || c = '>'))).map Char.toLower)

/-- Is the raw tag an opening tag (no leading `/`)? -/
def tagIsOpen (tag : List Char) : Bool :=
  match tag with
  | '/' :: _ => false
  | _ => true

/-- Scanner state for the HTML text extractor. -/
inductive HtmlMode where
  | text
  | tag
  | raw (closePat : List Char)
  | skipGt

/-- Case-insensitive `leadsWith` for matching a raw-text close tag. -/
def leadsWithCI : List Char → List Char → Bool
  | [], _ => true
  | _ :: _, [] => false
  | a :: as, b :: bs => a = b.toLower && leadsWithCI as bs

/-- One-character-at-a-time scan extracting the visible text runs of an
HTML document.  Elements whose lower-cased name is in `skip` have their
entire raw content dropped (the `decompose` of `<script>`/`<style>`). -/
def htmlRuns (skip : List String) : HtmlMode → List Char → List Char → List (List Char) →
    List Char → List (List Char)
  | .text, tAcc, _, out, [] => (tAcc.reverse :: out).reverse
  | .text, tAcc, tagAcc, out, c :: rest =>
    if c = '<' then htmlRuns skip .tag [] [] (tAcc.reverse :: out) rest
    else htmlRuns skip .text (c :: tAcc) tagAcc out rest
  | .tag, _, _, out, [] => out.reverse
  | .tag, tAcc, tagAcc, out, c :: rest =>
    if c = '>' then
      if tagIsOpen tagAcc.reverse && (skip.contains (tagLowerName tagAcc.reverse)) then
        htmlRuns skip (.raw ('<' :: '/' :: (tagLowerName tagAcc.reverse).data)) [] [] out rest
      else htmlRuns skip .text [] [] out rest
    else htmlRuns skip .tag tAcc (c :: tagAcc) out rest
  | .raw _, _, _, out, [] => out.reverse
  | .raw closePat, tAcc, tagAcc, out, c :: rest =>
    if leadsWithCI closePat (c :: rest) then htmlRuns skip .skipGt [] [] out rest
    else htmlRuns skip (.raw closePat) tAcc tagAcc out rest
  | .skipGt, _, _, out, [] => out.reverse
  | .skipGt, tAcc, tagAcc, out, c :: rest =>
    if c = '>' then htmlRuns skip .text [] [] out rest
    else htmlRuns skip .skipGt tAcc tagAcc out rest

/-- Models `BeautifulSoup(s, "html.parser")`, `decompose()` of each element
name in `skip`, then `get_text(separator='\n', strip=True)`. -/
def soupGetText (skip : List String) (s : String) : String :=
  joinWith "\n"
    (((htmlRuns skip .text [] [] [] s.data).map (fun cs => pyStrip (String.mk cs))).filter
      (fun piece => piece ≠ ""))

/-- The cleaning applied by `get_body_from_google_api_payload` in tools.py
and read_emails.py: `<img>`, `<script>` and `<style>` are decomposed. -/
def toolsCleanHtml (s : String) : String :=
  soupGetText ["script", "style"] s

/-- The cleaning applied by `get_message_body` in read_emails.py: only
`<img>` is decomposed, so script/style text survives into `get_text`. -/
def msgCleanHtml (s : String) : String :=
  soupGetText [] s

example : toolsCleanHtml "<p>Hi</p><script>var x;</script><div>Yo</div>" = "Hi\nYo" := rfl
example : toolsCleanHtml "<img src=a>Pic<style>b {}</style> caption " = "Pic\ncaption" := rfl
example : msgCleanHtml "<p>Hi</p><script>var x;</script>" = "Hi\nvar x;" := rfl
example : toolsCleanHtml "plain words" = "plain words" := rfl

/-! ## Email records and the truncation applied at fetch time -/

/-- The dictionary built by the fetch tools in tools.py:
`{"id", "subject", "from", "date", "snippet"}` (the body is stored under
the `snippet` key). -/
structure Email where
  id : String
  subject : String
  sender : String
  date : String
  snippet : String
deriving DecidableEq

/-- Body truncation in `fetch_emails`, `fetch_emails_by_sender` and
`fetch_email_by_query`:
`if len(body) > 500: body = body[:1000] + "..."`. -/
def truncateBody (body : String) : String :=
  if body.length > 500 then String.mk (body.data.take 1000) ++ "..." else body

/-! ## Importance classifier (tools.py) -/

/-- The keyword list `IMPORTANT_KEYWORDS` of tools.py. -/
def IMPORTANT_KEYWORDS : List String :=
  ["urgent", "asap", "deadline", "immediately", "launch", "quarterly", "meeting",
   "project", "update", "report", "invoice", "payment", "schedule", "appointment",
   "reminder", "action required", "follow up", "important", "priority", "quarter"]

/-- `rule_based_check(subject, snippet, sender)`: keyword match on
lower-cased subject+snippet, or a VIP sender containing `boss@` or
`teamlead@`. -/
def rule_based_check (subject snippet sender : String) : Bool :=
  let text := pyLower subject ++ " " ++ pyLower snippet
  if IMPORTANT_KEYWORDS.any (fun kw => strContains text kw) then true
  else if strContains (pyLower sender) "boss@" || strContains (pyLower sender) "teamlead@" then true
  else false

/-- `llm_fallback_check`, oracle stage: the oracle response is the
parameter; the verdict is `decision == "yes"` after
`response.content.strip().lower()`. -/
def llm_fallback_check (response : String) : Bool :=
  pyLower (pyStrip response) == "yes"

/-- `classify_email(email)`: rule stage, then oracle stage
(`fallbackResponse` is what the oracle answers), else the string
`"not important - " + subject`. -/
def classify_email (fallbackResponse : String) (e : Email) : String :=
  if rule_based_check e.subject e.snippet e.sender then "important"
  else if llm_fallback_check fallbackResponse then "important"
  else "not important - " ++ e.subject

/-! ## Spam filter and todo generation (tools.py, pipelines.py) -/

/-- The keyword list of `is_spam`. -/
def spamKeywords : List String :=
  ["unsubscribe", "newsletter", "promo", "sale", "advertisement"]

/-- `is_spam(email)`: punctuation-stripped, lower-cased subject+snippet
substring match against the spam keywords. -/
def is_spam (e : Email) : Bool :=
  let text := stripPunctToSpace (pyLower (pyLower e.subject ++ " " ++ pyLower e.snippet))
  spamKeywords.any (fun kw => strContains text kw)

/-- The whole-response sentinels checked by `generate_todo`. -/
def emptySentinels : List String :=
  ["", "none", "no tasks", "no task", "no action", "empty string"]

/-- The response handling at the end of `generate_todo`: a sentinel
response yields `[]`, otherwise the stripped response is split on
newlines. -/
def parse_todo_response (response : String) : List String :=
  if pyLower (pyStrip response) ∈ emptySentinels then []
  else pySplitLines (pyStrip response)

/-- The oracle as seen by `generate_todo`: a response (or a raised error)
for the importance question and for the task-extraction question. -/
structure TodoOracle where
  importanceResp : Email → Except String String
  taskResp : Email → Except String String

/-- `generate_todo(email)`: spam gate, importance gates, then the task
oracle.  The second component counts the oracle calls made; an oracle
error is an uncaught Python exception, so it propagates as `.error`. -/
def generate_todo (o : TodoOracle) (e : Email) : Except String (List String) × Nat :=
  if is_spam e then (.ok [], 0)
  else if rule_based_check e.subject e.snippet e.sender then
    match o.taskResp e with
    | .error err => (.error err, 1)
    | .ok r => (.ok (parse_todo_response r), 1)
  else
    match o.importanceResp e with
    | .error err => (.error err, 1)
    | .ok r =>
      if llm_fallback_check r then
        match o.taskResp e with
        | .error err => (.error err, 2)
        | .ok r2 => (.ok (parse_todo_response r2), 2)
      else (.ok [], 1)

/-- One row of the todolist built by `get_todolist` in pipelines.py. -/
structure TodoItem where
  sender : String
  subject : String
  todo : String
  date : String
deriving DecidableEq

/-- `get_todolist` of pipelines.py over an already-fetched batch: skip
emails whose todo is empty, join the todo lines with single spaces; an
exception escaping `generate_todo` aborts the loop and the whole call. -/
def get_todolist (o : TodoOracle) : List Email → Except String (List TodoItem)
  | [] => .ok []
  | e :: rest =>
    match (generate_todo o e).1 with
    | .error err => .error err
    | .ok todo =>
      if todo = [] then get_todolist o rest
      else
        match get_todolist o rest with
        | .error err => .error err
        | .ok tl =>
          .ok ({ sender := e.sender, subject := e.subject,
                 todo := joinWith " " todo, date := e.date } :: tl)

/-! ## Category sorter (`sort_emails` in tools.py) -/

/-- A Gmail mutation issued by `sort_emails`: `messages().spam`,
`messages().trash`, or `messages().modify` with add/remove label lists. -/
inductive MailAction where
  | reportSpam (id : String)
  | moveTrash (id : String)
  | modifyLabels (id : String) (add : List String) (remove : List String)
deriving DecidableEq

/-- The `categories` list inside `sort_emails`. -/
def gmailCategories : List String :=
  ["CATEGORY_PROMOTIONS", "CATEGORY_SOCIAL", "CATEGORY_UPDATES", "CATEGORY_FORUMS"]

/-- The mutation chosen by the branch ladder of `sort_emails` for a
category token: spam and trash get their dedicated calls, the four
category labels get a modify that adds the label and removes INBOX, and
everything else (including `inbox`) is left untouched. -/
def emailAction (category : String) (id : String) : Option MailAction :=
  if category = "spam" then some (.reportSpam id)
  else if category = "trash" then some (.moveTrash id)
  else if category ∈ gmailCategories then some (.modifyLabels id [category] ["INBOX"])
  else none

/-- The oracle as seen by `sort_emails`: the response text for the
importance fallback question and for the category question. -/
structure SortOracle where
  importanceResp : Email → String
  categoryResp : Email → String

/-- The category token `sort_emails` settles on for one email:
`inbox` when `classify_email` returns `"important"`, otherwise the
stripped category-oracle response. -/
def sortCategory (o : SortOracle) (e : Email) : String :=
  if classify_email (o.importanceResp e) e = "important" then "inbox"
  else pyStrip (o.categoryResp e)

/-- The per-message loop of `sort_emails`.  `failing` tells which Gmail
mutations raise; a raised mutation is uncaught, so it aborts the loop
(`.error` carries the mutations already executed).  On normal exit the
executed mutations and the final `"Sorting complete!"` are returned. -/
def sortRunAux (o : SortOracle) (failing : MailAction → Bool) :
    List Email → List MailAction → Except (List MailAction) (List MailAction × String)
  | [], acc => .ok (acc.reverse, "Sorting complete!")
  | e :: rest, acc =>
    match emailAction (sortCategory o e) e.id with
    | none => sortRunAux o failing rest acc
    | some a =>
      if failing a then .error acc.reverse
      else sortRunAux o failing rest (a :: acc)

/-- `sort_emails` over an already-fetched unread batch. -/
def sort_emails (o : SortOracle) (failing : MailAction → Bool) (unread : List Email) :
    Except (List MailAction) (List MailAction × String) :=
  sortRunAux o failing unread []

/-! ## Body extractor for the Google API payload dictionary (tools.py)

A `parts` list of payload dictionaries is represented first-child /
next-sibling so that the traversal is structurally recursive: `GPart.nil`
is the end of a sibling list and `GPart.part mt data children next` is one
dictionary (optional `mimeType`, optional decoded-later `body.data` bytes,
optional nested `parts` — an absent or empty `parts` key are both
`GPart.nil`, which the loop treats identically). -/

inductive GPart where
  | nil
  | part (mimeType : Option String) (data : Option (List Nat)) (children : GPart) (next : GPart)
deriving DecidableEq

/-- The top-level payload dictionary: `parts` present (possibly empty) or
absent, and otherwise a `body.data` with a `mimeType`.  Every payload
carries a `body` object, per the Google API shape the source assumes. -/
structure GPayload where
  mimeType : Option String
  data : Option (List Nat)
  parts : Option GPart

/-- The `find_parts` closure of `get_body_from_google_api_payload`: the
state is the pair of the nonlocal `text_plain`, `text_html` variables.  A
`text/plain` part with data is decoded and ends the current sibling list
(the Python `return`); a `text/html` part with data is decoded and the
loop continues into its children and siblings; any other part only
recurses.  A decode failure is an uncaught exception. -/
def findForest : Option String × Option String → GPart →
    Except String (Option String × Option String)
  | st, .nil => .ok st
  | st, .part _ none ch next =>
    match findForest st ch with
    | .error e => .error e
    | .ok st1 => findForest st1 next
  | st, .part mt (some d) ch next =>
    if mt = some "text/plain" then
      match utf8DecodeE d with
      | .error e => .error e
      | .ok s => .ok (some s, st.2)
    else if mt = some "text/html" then
      match utf8DecodeE d with
      | .error e => .error e
      | .ok s =>
        match findForest (st.1, some s) ch with
        | .error e => .error e
        | .ok st1 => findForest st1 next
    else
      match findForest st ch with
      | .error e => .error e
      | .ok st1 => findForest st1 next

/-- The state left by the search phase of
`get_body_from_google_api_payload`: traverse `parts` when present,
otherwise use the top-level `body.data` according to `mimeType`. -/
def searchState (p : GPayload) : Except String (Option String × Option String) :=
  match p.parts with
  | some forest => findForest (none, none) forest
  | none =>
    match p.data with
    | none => .ok (none, none)
    | some d =>
      if p.mimeType = some "text/plain" then
        match utf8DecodeE d with
        | .error e => .error e
        | .ok s => .ok (some s, none)
      else if p.mimeType = some "text/html" then
        match utf8DecodeE d with
        | .error e => .error e
        | .ok s => .ok (none, some s)
      else .ok (none, none)

/-- The fallback half of the prioritise-and-clean step: a truthy
`text_html` is cleaned, otherwise the sentinel is returned. -/
def htmlOrSentinel : Option String → String
  | some h => if h = "" then "No readable body found." else toolsCleanHtml h
  | none => "No readable body found."

/-- The prioritise-and-clean step: Python truthiness, so an empty
`text_plain` falls through to `text_html`. -/
def pickBody : Option String × Option String → String
  | (some p, th) => if p = "" then htmlOrSentinel th else p
  | (none, th) => htmlOrSentinel th

/-- `get_body_from_google_api_payload(payload)` in tools.py (the copy in
read_emails.py is line-for-line identical). -/
def get_body_from_google_api_payload (p : GPayload) : Except String String :=
  match searchState p with
  | .error e => .error e
  | .ok st => .ok (pickBody st)

/-- Spec-side comparison definition, written from the spec's words and not
from the source: a depth-first search in which the first `text/plain` leaf
found anywhere in the tree wins and the search stops immediately. -/
def specFirstPlainLeaf : GPart → Option (List Nat)
  | .nil => none
  | .part mt (some d) ch next =>
    if mt = some "text/plain" then some d
    else
      match specFirstPlainLeaf ch with
      | some r => some r
      | none => specFirstPlainLeaf next
  | .part _ none ch next =>
    match specFirstPlainLeaf ch with
    | some r => some r
    | none => specFirstPlainLeaf next

/-- No `text/plain` part with data anywhere in the forest (the guard the
source tests before assigning `text_plain`). -/
def noPlainForest : GPart → Bool
  | .nil => true
  | .part mt dt ch next =>
    !(mt == some "text/plain" && dt.isSome) && noPlainForest ch && noPlainForest next

/-- The `text/html` leaves with data, in the order the traversal visits
them (pre-order: a part before its children before its siblings). -/
def htmlLeaves : GPart → List (List Nat)
  | .nil => []
  | .part mt (some d) ch next =>
    if mt = some "text/html" then d :: (htmlLeaves ch ++ htmlLeaves next)
    else htmlLeaves ch ++ htmlLeaves next
  | .part _ none ch next => htmlLeaves ch ++ htmlLeaves next

/-- Last element of a list, with a default: the value a variable holds
after being overwritten by each list element in order. -/
def lastWritten : List String → Option String → Option String
  | [], prev => prev
  | h :: rest, _ => lastWritten rest (some h)

/-- Decode a list of byte payloads in order, stopping at the first
failure, as the traversal does. -/
def decodeLeaves : List (List Nat) → Except String (List String)
  | [] => .ok []
  | d :: ds =>
    match utf8DecodeE d with
    | .error e => .error e
    | .ok s =>
      match decodeLeaves ds with
      | .error e => .error e
      | .ok rest => .ok (s :: rest)

/-! ## Body extractor for `email.message.Message` objects
(`get_message_body` in read_emails.py)

A message is `single` (one content type, one optional decoded payload) or
`multipart`; the children of a multipart are a first-child / next-sibling
chain starting at `nilc`. -/

inductive MsgNode where
  | nilc
  | single (contentType : String) (payload : Option (List Nat)) (next : MsgNode)
  | multipart (children : MsgNode) (next : MsgNode)

/-- The `try: payload.decode('utf-8') except UnicodeDecodeError:
payload.decode('latin-1')` of `get_message_body`; also models the byte
decoding BeautifulSoup performs when handed raw bytes. -/
def decodeWithFallback (bs : List Nat) : String :=
  match utf8Decode bs with
  | some s => s
  | none => latin1Decode bs

/-- The non-multipart half of `get_message_body`: absent payload gives
`""`, `text/plain` decodes with the Latin-1 fallback, `text/html` goes
through BeautifulSoup with only `<img>` decomposed, anything else
(attachments) gives `""`. -/
def singleMsgBody (ct : String) (payload : Option (List Nat)) : String :=
  match payload with
  | none => ""
  | some bs =>
    if ct = "text/plain" then decodeWithFallback bs
    else if ct = "text/html" then msgCleanHtml (decodeWithFallback bs)
    else ""

/-- The multipart loop of `get_message_body`: first child whose recursive
body is truthy wins, else `""`. -/
def msgBodyChain : MsgNode → String
  | .nilc => ""
  | .single ct pl next =>
    if singleMsgBody ct pl = "" then msgBodyChain next else singleMsgBody ct pl
  | .multipart ch next =>
    if msgBodyChain ch = "" then msgBodyChain next else msgBodyChain ch

/-- `get_message_body(msg)` in read_emails.py (the `next` field of the
argument is sibling bookkeeping and is ignored for the message itself). -/
def get_message_body : MsgNode → String
  | .nilc => ""
  | .single ct pl _ => singleMsgBody ct pl
  | .multipart ch _ => msgBodyChain ch

example :
    get_body_from_google_api_payload
      { mimeType := some "multipart/mixed", data := none,
        parts := some (.part (some "text/plain") (some (asciiBytes "hi")) .nil .nil) } =
    .ok "hi" := rfl
example : get_message_body (.single "text/plain" (some [0xFF]) .nilc) = "ÿ" := rfl

/-! ## Concrete inputs used by witnesses and counterexamples -/

/-- A neutral email: not spam, no importance keyword, no VIP sender. -/
def plainEmail : Email :=
  { id := "p1", subject := "Hello", sender := "friend@example.com",
    date := "Tue", snippet := "how are you" }

/-- A second neutral email. -/
def plainEmail2 : Email :=
  { id := "p2", subject := "Hi again", sender := "pal@example.com",
    date := "Thu", snippet := "checking in" }

/-- A spam-keyword email (contains `newsletter` and `unsubscribe`). -/
def spamEmail : Email :=
  { id := "s1", subject := "Weekly Newsletter", sender := "news@z.com",
    date := "Mon", snippet := "click to unsubscribe" }

/-- A rule-stage important email (contains `project` and `deadline`). -/
def deadlineEmail : Email :=
  { id := "d1", subject := "Project deadline", sender := "boss@co.com",
    date := "Wed", snippet := "submit report by friday" }

/-- An email that reaches the final branch of `classify_email`. -/
def c6Email : Email :=
  { id := "m6", subject := "Lunch plans", sender := "friend@example.com",
    date := "Mon", snippet := "shall we grab food" }

/-- An oracle whose importance answer is a plain `no` and whose task
answer is a single line. -/
def noOracle : TodoOracle :=
  { importanceResp := fun _ => .ok "no", taskResp := fun _ => .ok "ok" }

/-- An oracle that raises on every question. -/
def boomOracle : TodoOracle :=
  { importanceResp := fun _ => .error "boom", taskResp := fun _ => .error "boom" }

/-- A body of 501 identical characters, just over the truncation guard. -/
def longBody : String := String.mk (List.replicate 501 'a')

/-- The sort oracle used by the C5 inputs: nothing is important and every
category question is answered `trash`. -/
def c5Oracle : SortOracle :=
  { importanceResp := fun _ => "no", categoryResp := fun _ => "trash" }

/-- The todo oracle used by the C8 inputs: the importance question raises
a timeout for `plainEmail` and answers `yes` otherwise; the task question
answers one task line. -/
def c8Oracle : TodoOracle :=
  { importanceResp := fun e => if e.id = "p1" then .error "ReadTimeout" else .ok "yes",
    taskResp := fun _ => .ok "- Submit report by Friday" }

/-- Spec-side comparison definition, from the spec's words: strip a
leading `-` or `•` bullet marker from a task line. -/
def stripBulletMarker (l : String) : String :=
  match l.data with
  | '-' :: rest => String.mk rest
  | '•' :: rest => String.mk rest
  | _ => l

/-- Spec-side comparison definition, from the spec's words and not from
the source: trim each line, strip leading bullet markers and surrounding
whitespace, discard blank lines. -/
def specTaskLines (response : String) : List String :=
  ((pySplitLines (pyStrip response)).map
      (fun l => pyStrip (stripBulletMarker (pyStrip l)))).filter (fun l => l ≠ "")

/-- A plausible task-extraction oracle response: bulleted lines separated
by a blank line. -/
def bulletResponse : String := "- Send slides\n\n- Book room"

/-- The state the no-plain traversal leaves behind: the html variable
holds the last decoded `text/html` leaf (or its starting value), and a
decode failure escapes. -/
def stateOfLeaves (tp th : Option String) (f : GPart) :
    Except String (Option String × Option String) :=
  match decodeLeaves (htmlLeaves f) with
  | .error e => .error e
  | .ok hs => .ok (tp, lastWritten hs th)

/-- A parts forest whose first sibling nests a `text/plain` leaf `A` and
whose second sibling is a `text/plain` leaf `B`. -/
def nestedForest : GPart :=
  .part (some "multipart/alternative") none
    (.part (some "text/plain") (some (asciiBytes "A")) .nil .nil)
    (.part (some "text/plain") (some (asciiBytes "B")) .nil .nil)

/-- The payload around `nestedForest`. -/
def nestedPlainPayload : GPayload :=
  { mimeType := some "multipart/mixed", data := none, parts := some nestedForest }

/-- A single `text/plain` leaf. -/
def plainForest : GPart :=
  .part (some "text/plain") (some (asciiBytes "hello")) .nil .nil

/-- The payload around `plainForest`. -/
def plainPayload : GPayload :=
  { mimeType := some "multipart/mixed", data := none, parts := some plainForest }

/-- A single `text/html` leaf with script content and two blocks. -/
def htmlOnlyForest : GPart :=
  .part (some "text/html")
    (some (asciiBytes "<p>Hi</p><script>zap();</script><div>Yo</div>")) .nil .nil

/-- The payload around `htmlOnlyForest`. -/
def htmlOnlyPayload : GPayload :=
  { mimeType := some "multipart/mixed", data := none, parts := some htmlOnlyForest }

/-- A payload whose only part declares `text/plain` but carries the
invalid UTF-8 byte 0xFF. -/
def badUtf8Payload : GPayload :=
  { mimeType := some "multipart/mixed", data := none,
    parts := some (.part (some "text/plain") (some [0xFF]) .nil .nil) }

/-! ## C10 — truncation invariant -/

/-- C10: for every extracted body strictly longer than 500 characters the
stored value is at most 1003 characters (at most 1000 kept plus the
`"..."` marker), and for a body of length at most 1000 the slice removes
nothing, so the stored value is the whole body followed by `"..."`. -/
theorem truncation_invariant (body : String) (h : body.length > 500) :
    (truncateBody body).length ≤ 1003 ∧
      (body.length ≤ 1000 → truncateBody body = body ++ "...") := by
  obtain ⟨l⟩ := body
  constructor
  · have hlen : (l.take 1000).length ≤ 1000 := List.length_take_le 1000 l
    simp only [truncateBody, if_pos h, String.length_append]
    have : (String.mk (l.take 1000)).length = (l.take 1000).length := rfl
    rw [this]
    have h3 : ("..." : String).length = 3 := rfl
    omega
  · intro h2
    have hlen : l.length ≤ 1000 := by simpa [String.length] using h2
    simp only [truncateBody, if_pos h, List.take_of_length_le hlen]

/-- C10 witness: a 501-character body. -/
theorem truncation_invariant_w :
    (truncateBody longBody).length ≤ 1003 ∧ truncateBody longBody = longBody ++ "..." := by
  have hl : longBody.length = 501 := by
    have h0 : longBody.length = (List.replicate 501 'a').length := rfl
    rw [h0, List.length_replicate]
  have h : longBody.length > 500 := by omega
  exact ⟨(truncation_invariant longBody h).1,
    (truncation_invariant longBody h).2 (by omega)⟩

/-! ## C2 — oracle stage of the importance classifier -/

/-- C2: the oracle response is stripped and lower-cased; the oracle-stage
verdict is important exactly when the normalized response is `"yes"`, and
the literal `"Maybe"` yields not-important (no error is possible: the
check is a total function). -/
theorem llm_fallback_yes_iff (response : String) :
    (llm_fallback_check response = true ↔ pyLower (pyStrip response) = "yes") ∧
      llm_fallback_check "Maybe" = false := by
  refine ⟨?_, by decide⟩
  simp [llm_fallback_check]

/-! ## C6 — classify_email output set -/

/-- C6: the claim says `classify` returns exactly one of the two tokens
`important` / `not-important` (the docstring of `classify_email` says
`"important" or "not important"`), but on a not-important email the code
returns `"not important - " + subject`, which is none of those tokens. -/
theorem classify_output_bug :
    classify_email "no" c6Email = "not important - Lunch plans" ∧
      ("not important - Lunch plans" : String) ≠ "important" ∧
      ("not important - Lunch plans" : String) ≠ "not important" ∧
      ("not important - Lunch plans" : String) ≠ "not-important" := by decide

/-! ## C1 — category sorter label mapping -/

/-- C1: the branch ladder of `sort_emails` triggers at most one mutation
per message, with the claimed mapping: `spam` reports spam, `trash`
trashes, each of the four category labels adds that label and removes
INBOX, `inbox` is a no-op, and any token outside the closed set is a
no-op (treated as inbox), never an error and never another label. -/
theorem sorter_label_mapping :
    (∀ category id, category ∉ ("spam" :: "trash" :: gmailCategories ++ ["inbox"]) →
        emailAction category id = none) ∧
    (∀ id, emailAction "spam" id = some (.reportSpam id)) ∧
    (∀ id, emailAction "trash" id = some (.moveTrash id)) ∧
    (∀ category id, category ∈ gmailCategories →
        emailAction category id = some (.modifyLabels id [category] ["INBOX"])) ∧
    (∀ id, emailAction "inbox" id = none) ∧
    (∀ (o : SortOracle) (e : Email),
        ((emailAction (sortCategory o e) e.id).toList).length ≤ 1) := by
  refine ⟨?_, fun id => rfl, fun id => rfl, ?_, fun id => rfl, ?_⟩
  · intro c id h
    simp only [gmailCategories, List.mem_cons, List.mem_append, List.mem_singleton,
      not_or, List.not_mem_nil] at h
    simp [emailAction, gmailCategories, h.1, h.2.1, h.2.2]
  · intro c id h
    fin_cases h <;> rfl
  · intro o e
    cases emailAction (sortCategory o e) e.id <;> simp

/-- C1 witness: a token outside the closed set is a no-op, a category
token maps to the matching label move. -/
theorem sorter_label_mapping_w :
    emailAction "Promotions" "m1" = none ∧
      emailAction "CATEGORY_SOCIAL" "m1" =
        some (.modifyLabels "m1" ["CATEGORY_SOCIAL"] ["INBOX"]) :=
  ⟨sorter_label_mapping.1 "Promotions" "m1" (by decide),
   sorter_label_mapping.2.2.2.1 "CATEGORY_SOCIAL" "m1" (by decide)⟩

/-! ## C3 — task extraction gating -/

/-- C3: a spam-flagged email makes `generate_todo` return the empty list
with zero oracle calls — for any oracle, hence on a repeated call too —
and a non-spam email that fails both importance stages returns the empty
list (one oracle call, the importance fallback). -/
theorem generate_todo_gates (e : Email) :
    (is_spam e = true → ∀ o1 o2 : TodoOracle,
        generate_todo o1 e = (.ok [], 0) ∧ generate_todo o2 e = (.ok [], 0)) ∧
    (∀ (o : TodoOracle) (r : String), is_spam e = false →
        rule_based_check e.subject e.snippet e.sender = false →
        o.importanceResp e = .ok r → llm_fallback_check r = false →
        generate_todo o e = (.ok [], 1)) := by
  constructor
  · intro h o1 o2
    constructor <;> simp [generate_todo, h]
  · intro o r h1 h2 h3 h4
    simp [generate_todo, h1, h2, h3, h4]

/-- C3 witness: the newsletter email is spam-flagged, so two calls under
two different oracles both return the empty list with zero oracle calls;
the neutral email fails both importance stages and returns the empty
list. -/
theorem generate_todo_gates_w :
    generate_todo noOracle spamEmail = (.ok [], 0) ∧
      generate_todo boomOracle spamEmail = (.ok [], 0) ∧
      generate_todo noOracle plainEmail = (.ok [], 1) :=
  ⟨((generate_todo_gates spamEmail).1 (by decide) noOracle boomOracle).1,
   ((generate_todo_gates spamEmail).1 (by decide) noOracle boomOracle).2,
   (generate_todo_gates plainEmail).2 noOracle "no" (by decide) (by decide) rfl (by decide)⟩

/-! ## C7 — task-response normalization -/

/-- C7 counterexample: on a bulleted response with a blank interior line
the code keeps the bullet markers and the blank line, while the claimed
per-line normalization would strip and discard them. -/
theorem todo_normalization_ce :
    parse_todo_response bulletResponse = ["- Send slides", "", "- Book room"] ∧
      specTaskLines bulletResponse = ["Send slides", "Book room"] ∧
      parse_todo_response bulletResponse ≠ specTaskLines bulletResponse := by decide

/-- C7 amended: the only whole-response normalization is a strip; a
stripped-and-lower-cased response matching one of the empty-result
sentinels yields the empty sequence (never a one-element sequence holding
the sentinel), and any other response is the stripped text split on
newlines with lines kept as they are. -/
theorem todo_normalization_amended (response : String) :
    (pyLower (pyStrip response) ∈ emptySentinels → parse_todo_response response = []) ∧
    (pyLower (pyStrip response) ∉ emptySentinels →
        parse_todo_response response = pySplitLines (pyStrip response)) := by
  constructor
  · intro h; simp [parse_todo_response, h]
  · intro h; simp [parse_todo_response, h]

/-- C7 witness: the sentinel `No Tasks` yields the empty sequence; a
two-line response yields its raw lines. -/
theorem todo_normalization_amended_w :
    parse_todo_response "No Tasks" = [] ∧
      parse_todo_response "Do X\nDo Y" = ["Do X", "Do Y"] :=
  ⟨(todo_normalization_amended "No Tasks").1 (by decide),
   ((todo_normalization_amended "Do X\nDo Y").2 (by decide)).trans (by decide)⟩

/-! ## C8 — oracle errors during task extraction -/

/-- C8 counterexample: an oracle timeout on the first email aborts
`get_todolist`, so the second email — which on its own yields a todolist
entry — never appears. -/
theorem todolist_abort_ce :
    get_todolist c8Oracle [plainEmail, deadlineEmail] = .error "ReadTimeout" ∧
      get_todolist c8Oracle [deadlineEmail] =
        .ok [{ sender := "boss@co.com", subject := "Project deadline",
               todo := "- Submit report by Friday", date := "Wed" }] := ⟨rfl, rfl⟩

/-- C8 amended: an oracle error escaping `generate_todo` propagates and
aborts `get_todolist` (no later email is processed), while a successful
call with no tasks lets the batch continue. -/
theorem todolist_error_propagation (o : TodoOracle) (e : Email) (rest : List Email) :
    (∀ err n, generate_todo o e = (.error err, n) →
        get_todolist o (e :: rest) = .error err) ∧
    (∀ n, generate_todo o e = (.ok [], n) →
        get_todolist o (e :: rest) = get_todolist o rest) := by
  constructor
  · intro err n h
    simp [get_todolist, h]
  · intro n h
    simp [get_todolist, h]

/-- C8 witness: the timeout on `plainEmail` aborts the batch at once; a
no-task email is skipped and the batch continues. -/
theorem todolist_error_propagation_w :
    get_todolist c8Oracle (plainEmail :: [deadlineEmail]) = .error "ReadTimeout" ∧
      get_todolist noOracle (plainEmail :: [plainEmail2]) =
        get_todolist noOracle [plainEmail2] :=
  ⟨(todolist_error_propagation c8Oracle plainEmail [deadlineEmail]).1 "ReadTimeout" 1 rfl,
   (todolist_error_propagation noOracle plainEmail [plainEmail2]).2 1 rfl⟩

/-! ## C5 — mutation failures during a sort pass -/

/-- C5 counterexample: with every Gmail mutation failing, a two-email
batch aborts on the first message — the second message's pending trash
action is never attempted and no completion acknowledgement is
returned. -/
theorem sort_failure_halts_ce :
    sort_emails c5Oracle (fun _ => true) [plainEmail, plainEmail2] = .error [] ∧
      emailAction (sortCategory c5Oracle plainEmail2) plainEmail2.id =
        some (.moveTrash "p2") := ⟨rfl, rfl⟩

/-- Helper: when no mutation fails, the sort loop executes exactly the
action of each email, in order, and acknowledges completion. -/
theorem sortRunAux_noFail (o : SortOracle) (failing : MailAction → Bool)
    (hf : ∀ a, failing a = false) :
    ∀ (l : List Email) (acc : List MailAction),
      sortRunAux o failing l acc =
        .ok (acc.reverse ++ l.filterMap (fun e => emailAction (sortCategory o e) e.id),
             "Sorting complete!") := by
  intro l
  induction l with
  | nil => intro acc; simp [sortRunAux]
  | cons e rest ih =>
    intro acc
    rw [sortRunAux]
    cases h : emailAction (sortCategory o e) e.id with
    | none => simp [h, ih, List.filterMap_cons]
    | some a => simp [h, hf a, ih, List.filterMap_cons]

/-- C5 amended: a mutation failure is not caught — the sort pass halts at
the first failing message, the remaining batch is not processed, and no
completion acknowledgement is produced; `"Sorting complete!"` is returned
exactly when every attempted action succeeds. -/
theorem sort_failure_semantics (o : SortOracle) (failing : MailAction → Bool) :
    ((∀ a, failing a = false) → ∀ emails,
        sort_emails o failing emails =
          .ok (emails.filterMap (fun e => emailAction (sortCategory o e) e.id),
               "Sorting complete!")) ∧
    (∀ e rest a, emailAction (sortCategory o e) e.id = some a → failing a = true →
        sort_emails o failing (e :: rest) = .error []) := by
  constructor
  · intro hf emails
    simpa using sortRunAux_noFail o failing hf emails []
  · intro e rest a h hf
    rw [sort_emails, sortRunAux, h]
    simp [hf]

/-- C5 witness: with no failures a one-email batch trashes it and
acknowledges completion; with failures the pass aborts with no action. -/
theorem sort_failure_semantics_w :
    sort_emails c5Oracle (fun _ => false) [plainEmail] =
      .ok ([.moveTrash "p1"], "Sorting complete!") ∧
      sort_emails c5Oracle (fun _ => true) [plainEmail2] = .error [] :=
  ⟨((sort_failure_semantics c5Oracle (fun _ => false)).1 (fun _ => rfl) [plainEmail]).trans
      rfl,
   (sort_failure_semantics c5Oracle (fun _ => true)).2 plainEmail2 [] (.moveTrash "p2")
      rfl rfl⟩

/-! ## C9 — decode and payload error recovery -/

/-- C9 counterexample: in the payload extractor the pipeline actually
uses, a `text/plain` leaf whose bytes are invalid UTF-8 makes the
traversal raise `UnicodeDecodeError` to the caller — a Latin-1 decode of
the same bytes exists and is not taken. -/
theorem body_decode_raises_ce :
    get_body_from_google_api_payload badUtf8Payload = .error "UnicodeDecodeError" ∧
      latin1Decode [0xFF] = "ÿ" := ⟨rfl, rfl⟩

/-- C9 amended: `get_message_body` in read_emails.py does recover — a
`text/plain` payload that fails UTF-8 decoding falls back to Latin-1
rather than raising, and an absent payload yields the empty string — but
the Google-API payload extractor propagates decode failures. -/
theorem msg_body_recovery (bs : List Nat) (h : utf8Decode bs = none) :
    get_message_body (.single "text/plain" (some bs) .nilc) = latin1Decode bs ∧
      (∀ ct : String, get_message_body (.single ct none .nilc) = "") := by
  constructor
  · simp [get_message_body, singleMsgBody, decodeWithFallback, h]
  · intro ct
    simp [get_message_body, singleMsgBody]

/-- C9 witness: the 0xFF byte decodes to `ÿ` via the fallback, and an
absent payload yields the empty string. -/
theorem msg_body_recovery_w :
    get_message_body (.single "text/plain" (some [0xFF]) .nilc) = "ÿ" ∧
      get_message_body (.single "application/pdf" none .nilc) = "" :=
  ⟨((msg_body_recovery [0xFF] (by decide)).1).trans (by decide),
   (msg_body_recovery [0xFF] (by decide)).2 "application/pdf"⟩

/-! ## C4 — body extractor traversal -/

/-- Helper: decoding a concatenation decodes the first list, then the
second. -/
theorem decodeLeaves_append (a b : List (List Nat)) :
    decodeLeaves (a ++ b) =
      match decodeLeaves a with
      | .error e => .error e
      | .ok xs =>
        match decodeLeaves b with
        | .error e => .error e
        | .ok ys => .ok (xs ++ ys) := by
  induction a with
  | nil =>
    cases h : decodeLeaves b <;> simp [decodeLeaves, h]
  | cons d ds ih =>
    cases hd : utf8DecodeE d with
    | error e => simp [decodeLeaves, hd]
    | ok s =>
      rw [List.cons_append]
      simp only [decodeLeaves, hd, ih]
      cases h1 : decodeLeaves ds <;> cases h2 : decodeLeaves b <;> simp

/-- Helper: overwriting with a concatenation is overwriting in two
stages. -/
theorem lastWritten_append (a b : List String) (prev : Option String) :
    lastWritten (a ++ b) prev = lastWritten b (lastWritten a prev) := by
  induction a generalizing prev with
  | nil => rfl
  | cons h t ih => simp [lastWritten, ih]

/-- Helper: on a forest with no `text/plain` leaf the traversal never
stops early, never sets the plain variable, and leaves the html variable
holding the last `text/html` leaf it decoded (a decode failure
escapes). -/
theorem findForest_noPlain (f : GPart) :
    ∀ tp th : Option String, noPlainForest f = true →
      findForest (tp, th) f = stateOfLeaves tp th f := by
  induction f with
  | nil => intro tp th _; rfl
  | part mt dt ch next ih_ch ih_next =>
    intro tp th hnp
    simp only [noPlainForest, Bool.and_eq_true, Bool.not_eq_true'] at hnp
    obtain ⟨⟨hguard, hch⟩, hnext⟩ := hnp
    cases dt with
    | none =>
      simp only [findForest, stateOfLeaves, htmlLeaves, decodeLeaves_append]
      rw [ih_ch tp th hch]
      simp only [stateOfLeaves]
      cases h1 : decodeLeaves (htmlLeaves ch) with
      | error e => rfl
      | ok hs1 =>
        simp only []
        rw [ih_next tp (lastWritten hs1 th) hnext]
        simp only [stateOfLeaves]
        cases h2 : decodeLeaves (htmlLeaves next) with
        | error e => rfl
        | ok hs2 => simp [lastWritten_append]
    | some d =>
      by_cases hpl : mt = some "text/plain"
      · rw [hpl] at hguard; simp at hguard
      · by_cases hht : mt = some "text/html"
        · subst hht
          simp only [findForest, stateOfLeaves, htmlLeaves]
          rw [if_neg (by simp)]
          simp only [if_true, decodeLeaves]
          cases hd : utf8DecodeE d with
          | error e => rfl
          | ok s =>
            simp only []
            rw [ih_ch tp (some s) hch]
            simp only [stateOfLeaves, decodeLeaves_append]
            cases h1 : decodeLeaves (htmlLeaves ch) with
            | error e => rfl
            | ok hs1 =>
              simp only []
              rw [ih_next tp (lastWritten hs1 (some s)) hnext]
              simp only [stateOfLeaves]
              cases h2 : decodeLeaves (htmlLeaves next) with
              | error e => rfl
              | ok hs2 => simp [lastWritten, lastWritten_append]
        · simp only [findForest, stateOfLeaves, htmlLeaves]
          rw [if_neg hpl, if_neg hht, if_neg hht]
          rw [ih_ch tp th hch]
          simp only [stateOfLeaves, decodeLeaves_append]
          cases h1 : decodeLeaves (htmlLeaves ch) with
          | error e => rfl
          | ok hs1 =>
            simp only []
            rw [ih_next tp (lastWritten hs1 th) hnext]
            simp only [stateOfLeaves]
            cases h2 : decodeLeaves (htmlLeaves next) with
            | error e => rfl
            | ok hs2 => simp [lastWritten_append]

/-- C4 counterexample: the first `text/plain` leaf in depth-first order is
the nested `A`, but the code returns `B` — the Python `return` only ends
the sibling list it is in, so an outer later `text/plain` sibling
overwrites a plain leaf found earlier inside a nested subtree; the search
does not stop immediately. -/
theorem body_extractor_first_plain_ce :
    specFirstPlainLeaf nestedForest = some (asciiBytes "A") ∧
      utf8Decode (asciiBytes "A") = some "A" ∧
      get_body_from_google_api_payload nestedPlainPayload = .ok "B" ∧
      ("B" : String) ≠ "A" :=
  ⟨rfl, rfl, rfl, by decide⟩

/-- C4 amended: a nonempty `text/plain` result still beats html — the
plain text returned is the one the pruned traversal last assigned, not
necessarily the first leaf in depth-first order — and when no `text/plain`
leaf exists the result is the *last* `text/html` leaf in traversal order,
cleaned of `<img>`, `<script>` and `<style>` with block separation as line
breaks, or the sentinel `"No readable body found."` when no html leaf
exists either (or the last one is empty). -/
theorem body_extractor_c4 (p : GPayload) (f : GPart) (hp : p.parts = some f) :
    (∀ s th, findForest (none, none) f = .ok (some s, th) → s ≠ "" →
        get_body_from_google_api_payload p = .ok s) ∧
    (noPlainForest f = true → ∀ hs, decodeLeaves (htmlLeaves f) = .ok hs →
        get_body_from_google_api_payload p =
          .ok (htmlOrSentinel (lastWritten hs none))) := by
  constructor
  · intro s th hfind hs
    simp [get_body_from_google_api_payload, searchState, hp, hfind, pickBody, hs]
  · intro hnp hs hdec
    have hstate := findForest_noPlain f none none hnp
    rw [stateOfLeaves, hdec] at hstate
    simp [get_body_from_google_api_payload, searchState, hp, hstate, pickBody]

/-- C4 witness: a lone nonempty `text/plain` leaf is returned as is; with
no plain leaf the html leaf is cleaned — script content dropped, blocks
separated by a newline. -/
theorem body_extractor_c4_w :
    get_body_from_google_api_payload plainPayload = .ok "hello" ∧
      get_body_from_google_api_payload htmlOnlyPayload = .ok "Hi\nYo" :=
  ⟨(body_extractor_c4 plainPayload plainForest rfl).1 "hello" none rfl (by decide),
   ((body_extractor_c4 htmlOnlyPayload htmlOnlyForest rfl).2 rfl
      ["<p>Hi</p><script>zap();</script><div>Yo</div>"] rfl).trans rfl⟩
